import Mathlib

/-!
Verification of the MindEase Emotional Analytics Engine.

Shallow embedding of `backend/vector_db.py`. The engine's numeric pipeline
(float arithmetic on distances and similarities) is modelled over the exact
rationals; the cosine-distance helper, which takes real square roots, is
modelled over the reals. The external collaborators (embedding provider,
vector store) are modelled as explicit parameters: an embedding gateway
function and a store distance function, exactly as the specification scopes
them out of the engine.
-/

/-! ## Python dict model

Metadata dictionaries are association lists. `dictInsert` has Python dict
assignment semantics (replace-in-place when the key exists, append
otherwise), `dictUpdate` is `dict.update` (left-to-right assignment of the
supplied pairs), `dictGet` is `dict.get` returning `none` when absent, and
`getS` is lookup with default `""` (total model of field access). -/

abbrev MetaD := List (String × String)

def dictGet (d : MetaD) (k : String) : Option String :=
  (d.find? (fun p => p.1 == k)).map (fun p => p.2)

def getS (d : MetaD) (k : String) : String :=
  (dictGet d k).getD ""

def dictInsert (d : MetaD) (k v : String) : MetaD :=
  if d.any (fun p => p.1 == k) then d.map (fun p => if p.1 == k then (k, v) else p)
  else d ++ [(k, v)]

def dictUpdate (d : MetaD) (m : MetaD) : MetaD :=
  m.foldl (fun acc p => dictInsert acc p.1 p.2) d

/-! ## EmotionalSeedVectors (vector_db.py, class EmotionalSeedVectors) -/

def ANCHORS : List (String × String) :=
  [("anger", "I am furious, I want to scream, everything is unfair."),
   ("sadness", "I feel empty, alone, and like I can't keep going."),
   ("anxiety", "My heart is racing, I can't breathe, I'm going to fail."),
   ("burnout", "I'm exhausted, nothing matters anymore, I can't do this."),
   ("loneliness", "Nobody understands me, I'm completely isolated and invisible."),
   ("overwhelm", "Everything is too much, I'm drowning in responsibilities."),
   ("crisis", "I don't want to exist anymore, there's no way out of this pain.")]

/-- Python `str.lower`, written directly over the character list so that it
reduces inside the kernel. -/
def strLower (s : String) : String :=
  ⟨s.data.map Char.toLower⟩

/-- `EmotionalSeedVectors.get_anchor`: `ANCHORS.get(emotion.lower(), "")`. -/
def get_anchor (emotion : String) : String :=
  ((ANCHORS.find? (fun p => p.1 == strLower emotion)).map (fun p => p.2)).getD ""

/-- `EmotionalSeedVectors.all_emotions`: `list(ANCHORS.keys())`. -/
def all_emotions : List String := ANCHORS.map (fun p => p.1)

/-! ## Store and gateways -/

/-- One record of the ChromaDB collection: `(id, embedding, document, metadata)`. -/
structure Entry where
  id : String
  embedding : List ℚ
  document : String
  meta : MetaD
deriving DecidableEq

/-- The collection state (the only mutable state of the engine). -/
structure DB where
  entries : List Entry
deriving DecidableEq

/-- External collaborators: the embedding provider (`generate_embedding`) and
the distance metric the vector store ranks neighbors by. Both are outside the
engine and are passed in abstractly. -/
structure Gateways where
  embed : String → List ℚ
  queryDist : List ℚ → List ℚ → ℚ

/-- Insertion step for the store's nearest-neighbor ordering
(ascending distance). -/
def insertByDist (c : ℚ × MetaD) : List (ℚ × MetaD) → List (ℚ × MetaD)
  | [] => [c]
  | h :: t => if c.1 < h.1 then c :: h :: t else h :: insertByDist c t

def sortByDist (l : List (ℚ × MetaD)) : List (ℚ × MetaD) :=
  l.foldr insertByDist []

/-- `collection.query(query_embeddings=[q], n_results=k)`: the `k` nearest
entries by the store's metric, as (distance, metadata) pairs sorted by
ascending distance. -/
def queryStore (g : Gateways) (db : DB) (q : List ℚ) (n_results : Int) : List (ℚ × MetaD) :=
  (sortByDist (db.entries.map (fun e => (g.queryDist e.embedding q, e.meta)))).take n_results.toNat

/-! ## Entry ingestion (add_emotional_entry) -/

/-- `vent_text[:50] + "..." if len(vent_text) > 50 else vent_text`. -/
def text_preview (vent_text : String) : String :=
  if vent_text.length > 50 then vent_text.take 50 ++ "..." else vent_text

/-- The `entry_metadata` dict: system fields first, then
`entry_metadata.update(metadata)` with the caller-supplied mapping. -/
def entry_metadata (user_id cohort_id vent_text now_iso : String) (metadata : MetaD) : MetaD :=
  dictUpdate
    [("user_id", user_id), ("cohort_id", cohort_id),
     ("timestamp", now_iso), ("text_preview", text_preview vent_text)]
    metadata

/-- `entry_id = f"{user_id}_{datetime.now().timestamp()}"`; the wall-clock
value is an explicit input. -/
def make_entry_id (user_id now_ts : String) : String :=
  user_id ++ "_" ++ now_ts

/-- `add_emotional_entry`: embeds the text, builds metadata and id, and appends
one record to the collection. The two `datetime.now()` reads (isoformat for the
metadata, numeric timestamp for the id) are explicit inputs. -/
def add_emotional_entry (g : Gateways) (user_id cohort_id vent_text : String)
    (metadata : MetaD) (now_iso now_ts : String) (db : DB) : String × DB :=
  (make_entry_id user_id now_ts,
   ⟨db.entries ++ [⟨make_entry_id user_id now_ts, g.embed vent_text, vent_text,
      entry_metadata user_id cohort_id vent_text now_iso metadata⟩]⟩)

/-! ## Risk and alert classifiers -/

/-- Python `round(x, 4)` modelled as rounding to the nearest multiple of
`1/10000` over the exact rationals. -/
def round4 (x : ℚ) : ℚ :=
  (round (x * 10000) : ℚ) / 10000

/-- `_calculate_risk_level`. -/
def calculate_risk_level (similarity : ℚ) : String :=
  if similarity ≥ 95/100 then "CRITICAL"
  else if similarity ≥ 85/100 then "HIGH"
  else if similarity ≥ 75/100 then "MODERATE"
  else "LOW"

/-- `emotion_profile.get(key, 0)` on the profile dict. -/
def getQ (profile : List (String × ℚ)) (k : String) : ℚ :=
  ((profile.find? (fun p => p.1 == k)).map (fun p => p.2)).getD 0

/-- `_assess_cohort_alert`. -/
def assess_cohort_alert (emotion_profile : List (String × ℚ)) : String :=
  if getQ emotion_profile "crisis" > 7/10 then "URGENT"
  else if getQ emotion_profile "anger" > 75/100 ∨ getQ emotion_profile "burnout" > 75/100 then
    "WARNING"
  else if getQ emotion_profile "anxiety" > 7/10 then "MONITOR"
  else "STABLE"

/-! ## Semantic emotion search (get_top_emotions) -/

/-- A formatted search match (the dict appended to `matches`). -/
structure Match where
  cohort_id : String
  user_id : String
  similarity_score : ℚ
  risk_level : String
  timestamp : String
  text_preview : String
deriving DecidableEq

def make_match (m : MetaD) (similarity : ℚ) : Match :=
  ⟨getS m "cohort_id", getS m "user_id", round4 similarity,
   calculate_risk_level similarity, getS m "timestamp", getS m "text_preview"⟩

/-- The filter-and-format loop of `get_top_emotions`: keep a candidate when
`similarity = 1 - distance` is at or above the threshold. -/
def build_matches (cands : List (ℚ × MetaD)) (threshold : ℚ) : List Match :=
  cands.filterMap (fun c => if 1 - c.1 ≥ threshold then some (make_match c.2 (1 - c.1)) else none)

/-- `get_top_emotions`: raises `ValueError` (modelled as `Except.error`) for an
unregistered emotion, otherwise queries the store for the `top_k` nearest
entries to the anchor embedding and filters by threshold. No validation of
`threshold` or `top_k` is performed. -/
def get_top_emotions (g : Gateways) (db : DB) (target_emotion : String)
    (threshold : ℚ) (top_k : Int) : Except String (List Match) :=
  if get_anchor target_emotion = "" then Except.error ("Unknown emotion: " ++ target_emotion)
  else
    Except.ok (build_matches
      (queryStore g db (g.embed (get_anchor target_emotion)) top_k) threshold)

deriving instance DecidableEq for Except

/-! ## Crisis intervention gate (flag_for_human_intervention) -/

/-- A crisis flag (the dict appended to `flagged_users`). -/
structure CrisisFlag where
  user_id : String
  cohort_id : String
  crisis_similarity : ℚ
  timestamp : String
  text_preview : String
  intervention_required : Bool
  flagged_at : String
deriving DecidableEq

def make_flag (m : MetaD) (similarity : ℚ) (flagged_at : String) : CrisisFlag :=
  ⟨getS m "user_id", getS m "cohort_id", round4 similarity,
   getS m "timestamp", getS m "text_preview", true, flagged_at⟩

/-- The gating loop of `flag_for_human_intervention`: flag a candidate exactly
when `similarity = 1 - distance` strictly exceeds the threshold. -/
def build_flags (cands : List (ℚ × MetaD)) (similarity_threshold : ℚ)
    (flagged_at : String) : List CrisisFlag :=
  cands.filterMap (fun c =>
    if 1 - c.1 > similarity_threshold then some (make_flag c.2 (1 - c.1) flagged_at) else none)

/-- `flag_for_human_intervention`: queries the 50 nearest entries to the
crisis anchor and applies the strict similarity gate. `sentiment_threshold`
is accepted but never consulted, exactly as in the source. -/
def flag_for_human_intervention (g : Gateways) (db : DB)
    (similarity_threshold sentiment_threshold : ℚ) (flagged_at : String) : List CrisisFlag :=
  build_flags (queryStore g db (g.embed (get_anchor "crisis")) 50)
    similarity_threshold flagged_at

/-! ## Concrete test fixtures (used by witnesses and counterexamples) -/

def meta0 : MetaD :=
  [("user_id", "u1"), ("cohort_id", "C1"), ("timestamp", "T1"), ("text_preview", "hello")]

def g0 : Gateways := ⟨fun _ => [1], fun _ _ => 1/10⟩

def db1 : DB := ⟨[⟨"u1_123", [1], "hello", meta0⟩]⟩

/-! ## Cosine distance and cohort health analyzer (analyze_cohort_health)

`_cosine_distance` takes real square roots (`np.linalg.norm`), so this part of
the pipeline is embedded over the reals; the stored embeddings are rational
vectors coerced into the reals at the call sites. -/

def dotList (a b : List ℝ) : ℝ :=
  (List.zipWith (fun x y => x * y) a b).sum

def sumSq (a : List ℝ) : ℝ :=
  (a.map (fun x => x * x)).sum

/-- `_cosine_distance`: `1 - dot/(norm1*norm2)`, and `1.0` when either norm is
zero, exactly as the source. -/
noncomputable def cosine_distance (vec1 vec2 : List ℝ) : ℝ :=
  if Real.sqrt (sumSq vec1) = 0 ∨ Real.sqrt (sumSq vec2) = 0 then 1
  else 1 - dotList vec1 vec2 / (Real.sqrt (sumSq vec1) * Real.sqrt (sumSq vec2))

/-- Python `round(x, 4)` on the real-valued similarity; the result is an exact
decimal, represented in ℚ. -/
noncomputable def round4R (x : ℝ) : ℚ :=
  (round (x * 10000) : ℤ) / 10000

/-- `collection.get(where={"cohort_id": cohort_id})`: exact-match metadata
filter over all stored entries. -/
def cohort_entries (db : DB) (cohort_id : String) : List Entry :=
  db.entries.filter (fun e => dictGet e.meta "cohort_id" == some cohort_id)

/-- `np.mean(embeddings_array, axis=0)`: coordinate-wise arithmetic mean. -/
def vecAdd (a b : List ℚ) : List ℚ :=
  List.zipWith (fun x y => x + y) a b

def sumVecs : List (List ℚ) → List ℚ
  | [] => []
  | [v] => v
  | v :: rest => vecAdd v (sumVecs rest)

def centroidOf (vs : List (List ℚ)) : List ℚ :=
  (sumVecs vs).map (fun x => x / (vs.length : ℚ))

/-- The `emotion_distances` dict: for each anchor,
`round(1 - _cosine_distance(centroid, anchor_embedding), 4)`. -/
noncomputable def emotion_profile_of (g : Gateways) (centroid : List ℚ) : List (String × ℚ) :=
  ANCHORS.map (fun p =>
    (p.1, round4R ((1 : ℝ) - cosine_distance (centroid.map (fun q => (q : ℝ)))
      ((g.embed p.2).map (fun q => (q : ℝ))))))

/-- `max(emotion_distances, key=emotion_distances.get)`: first key attaining
the maximum, in insertion order. -/
def max_key : List (String × ℚ) → String
  | [] => ""
  | h :: t => (t.foldl (fun best p => if p.2 > best.2 then p else best) h).1

/-- A value of the report dict returned by `analyze_cohort_health`. -/
inductive RVal where
  | s : String → RVal
  | n : Nat → RVal
  | profile : List (String × ℚ) → RVal
deriving DecidableEq

/-- `analyze_cohort_health`: the `no_data` dict when the cohort has no entries,
otherwise the full health report built from the centroid profile. -/
noncomputable def analyze_cohort_health (g : Gateways) (cohort_id : String) (db : DB)
    (now_iso : String) : List (String × RVal) :=
  if (cohort_entries db cohort_id).isEmpty then
    [("cohort_id", RVal.s cohort_id), ("status", RVal.s "no_data"),
     ("message", RVal.s "No emotional data found for this cohort")]
  else
    [("cohort_id", RVal.s cohort_id),
     ("total_entries", RVal.n (cohort_entries db cohort_id).length),
     ("dominant_emotion", RVal.s (max_key (emotion_profile_of g
        (centroidOf ((cohort_entries db cohort_id).map (fun e => e.embedding)))))),
     ("emotion_profile", RVal.profile (emotion_profile_of g
        (centroidOf ((cohort_entries db cohort_id).map (fun e => e.embedding))))),
     ("alert_level", RVal.s (assess_cohort_alert (emotion_profile_of g
        (centroidOf ((cohort_entries db cohort_id).map (fun e => e.embedding)))))),
     ("timestamp", RVal.s now_iso)]

/-! ## The public operations as state transformers

All durable state is the collection (`DB`). Each public method is modelled as
`State → Result × State`; the read-only methods never touch the collection,
which is visible directly in their embedding. -/

def get_top_emotions_op (g : Gateways) (target_emotion : String) (threshold : ℚ)
    (top_k : Int) (db : DB) : Except String (List Match) × DB :=
  (get_top_emotions g db target_emotion threshold top_k, db)

noncomputable def analyze_cohort_health_op (g : Gateways) (cohort_id now_iso : String)
    (db : DB) : List (String × RVal) × DB :=
  (analyze_cohort_health g cohort_id db now_iso, db)

def flag_for_human_intervention_op (g : Gateways) (similarity_threshold sentiment_threshold : ℚ)
    (flagged_at : String) (db : DB) : List CrisisFlag × DB :=
  (flag_for_human_intervention g db similarity_threshold sentiment_threshold flagged_at, db)

/-- `get_stats`: `(collection.count(), collection.name, "cosine")`. -/
def get_stats (db : DB) : Nat × String × String :=
  (db.entries.length, "MindEase_Emotions", "cosine")

def get_stats_op (db : DB) : (Nat × String × String) × DB :=
  (get_stats db, db)

/-- A concrete unit vector of `EuclideanSpace ℝ (Fin 1)`, used by witnesses. -/
noncomputable def oneVec : EuclideanSpace ℝ (Fin 1) :=
  EuclideanSpace.single 0 1

/-! ## Lemmas about the dict model -/

theorem find?_cons_pos {α : Type} (f : α → Bool) (a : α) (l : List α) (h : f a = true) :
    List.find? f (a :: l) = some a := by
  rw [List.find?_cons, h]

theorem find?_cons_neg {α : Type} (f : α → Bool) (a : α) (l : List α) (h : f a = false) :
    List.find? f (a :: l) = List.find? f l := by
  rw [List.find?_cons, h]

theorem dictGet_append_single_self (d : MetaD) (k v : String)
    (h : d.any (fun p => p.1 == k) = false) :
    dictGet (d ++ [(k, v)]) k = some v := by
  induction d with
  | nil =>
    show dictGet [(k, v)] k = some v
    unfold dictGet
    rw [find?_cons_pos (fun p => p.1 == k) (k, v) [] (by simp)]
    rfl
  | cons p t ih =>
    simp only [List.any_cons, Bool.or_eq_false_iff] at h
    rw [List.cons_append]
    show dictGet (p :: (t ++ [(k, v)])) k = some v
    unfold dictGet
    rw [find?_cons_neg (fun p => p.1 == k) p (t ++ [(k, v)]) h.1]
    exact ih h.2

theorem dictGet_append_single_ne (d : MetaD) (k v k' : String) (h : k' ≠ k) :
    dictGet (d ++ [(k, v)]) k' = dictGet d k' := by
  induction d with
  | nil =>
    show dictGet [(k, v)] k' = dictGet [] k'
    unfold dictGet
    rw [find?_cons_neg (fun p => p.1 == k') (k, v) [] (by simp [Ne.symm h])]
  | cons p t ih =>
    rw [List.cons_append]
    show dictGet (p :: (t ++ [(k, v)])) k' = dictGet (p :: t) k'
    unfold dictGet
    by_cases hp : (p.1 == k') = true
    · rw [find?_cons_pos (fun p => p.1 == k') p (t ++ [(k, v)]) hp,
        find?_cons_pos (fun p => p.1 == k') p t hp]
    · rw [find?_cons_neg (fun p => p.1 == k') p (t ++ [(k, v)]) (by simpa using hp),
        find?_cons_neg (fun p => p.1 == k') p t (by simpa using hp)]
      exact ih

theorem find?_keyReplace_self (d : MetaD) (k v : String)
    (h : d.any (fun p => p.1 == k) = true) :
    List.find? (fun p => p.1 == k) (d.map (fun p => if p.1 == k then (k, v) else p)) =
      some (k, v) := by
  induction d with
  | nil => simp at h
  | cons p t ih =>
    simp only [List.any_cons, Bool.or_eq_true] at h
    rw [List.map_cons]
    by_cases hp : (p.1 == k) = true
    · rw [if_pos hp]
      rw [find?_cons_pos (fun p => p.1 == k) (k, v)
        (t.map (fun p => if p.1 == k then (k, v) else p)) (by simp)]
    · rw [if_neg hp]
      rw [find?_cons_neg (fun p => p.1 == k) p
        (t.map (fun p => if p.1 == k then (k, v) else p)) (by simpa using hp)]
      exact ih (h.resolve_left hp)

theorem find?_keyReplace_ne (d : MetaD) (k v k' : String) (h : k' ≠ k) :
    List.find? (fun p => p.1 == k') (d.map (fun p => if p.1 == k then (k, v) else p)) =
      List.find? (fun p => p.1 == k') d := by
  induction d with
  | nil => rfl
  | cons p t ih =>
    rw [List.map_cons]
    by_cases hp : (p.1 == k) = true
    · rw [if_pos hp]
      have hpk : p.1 = k := by simpa using hp
      rw [find?_cons_neg (fun p => p.1 == k') (k, v)
          (t.map (fun p => if p.1 == k then (k, v) else p)) (by simp [Ne.symm h]),
        find?_cons_neg (fun p => p.1 == k') p t (by simp [hpk, Ne.symm h])]
      exact ih
    · rw [if_neg hp]
      by_cases hq : (p.1 == k') = true
      · rw [find?_cons_pos (fun p => p.1 == k') p
            (t.map (fun p => if p.1 == k then (k, v) else p)) hq,
          find?_cons_pos (fun p => p.1 == k') p t hq]
      · rw [find?_cons_neg (fun p => p.1 == k') p
            (t.map (fun p => if p.1 == k then (k, v) else p)) (by simpa using hq),
          find?_cons_neg (fun p => p.1 == k') p t (by simpa using hq)]
        exact ih

theorem dictGet_dictInsert_self (d : MetaD) (k v : String) :
    dictGet (dictInsert d k v) k = some v := by
  unfold dictInsert
  by_cases h : d.any (fun p => p.1 == k) = true
  · rw [if_pos h]
    unfold dictGet
    rw [find?_keyReplace_self d k v h]
    rfl
  · rw [if_neg h]
    exact dictGet_append_single_self d k v (by simp only [Bool.not_eq_true] at h; exact h)

theorem dictGet_dictInsert_ne (d : MetaD) (k v k' : String) (h : k' ≠ k) :
    dictGet (dictInsert d k v) k' = dictGet d k' := by
  unfold dictInsert
  by_cases hany : d.any (fun p => p.1 == k) = true
  · rw [if_pos hany]
    unfold dictGet
    rw [find?_keyReplace_ne d k v k' h]
  · rw [if_neg hany]
    exact dictGet_append_single_ne d k v k' h

theorem dictGet_dictUpdate_not_mem (d : MetaD) (md : MetaD) (k : String)
    (h : ∀ p ∈ md, p.1 ≠ k) :
    dictGet (dictUpdate d md) k = dictGet d k := by
  induction md generalizing d with
  | nil => rfl
  | cons p t ih =>
    show dictGet (dictUpdate (dictInsert d p.1 p.2) t) k = dictGet d k
    rw [ih (dictInsert d p.1 p.2) (fun q hq => h q (List.mem_cons_of_mem p hq))]
    exact dictGet_dictInsert_ne d p.1 p.2 k
      (fun hk => h p (List.mem_cons_self p t) hk.symm)

theorem dictGet_dictUpdate_mem (d : MetaD) (md : MetaD) (k v : String)
    (hnd : (md.map Prod.fst).Nodup) (hmem : (k, v) ∈ md) :
    dictGet (dictUpdate d md) k = some v := by
  induction md generalizing d with
  | nil => cases hmem
  | cons p t ih =>
    rw [List.map_cons, List.nodup_cons] at hnd
    rcases List.mem_cons.mp hmem with heq | hmemt
    · subst heq
      show dictGet (dictUpdate (dictInsert d k v) t) k = some v
      rw [dictGet_dictUpdate_not_mem (dictInsert d k v) t k ?_]
      · exact dictGet_dictInsert_self d k v
      · intro q hq hqk
        exact hnd.1 (List.mem_map.mpr ⟨q, hq, hqk⟩)
    · exact ih (dictInsert d p.1 p.2) hnd.2 hmemt

/-! ## Claim C2 — metadata merge precedence -/

/-- Claim C2 as stated is false: on a key collision the stored metadata keeps
the caller-supplied value, not the system-set one. Concretely, supplying
caller metadata `{"user_id": "evil"}` at ingestion for user `real_user` stores
`user_id = "evil"`. -/
theorem entry_metadata_system_precedence_counterexample :
    dictGet (entry_metadata "real_user" "C1" "hi" "2024-01-01T00:00:00"
      [("user_id", "evil")]) "user_id" = some "evil" ∧
    some "evil" ≠ some "real_user" := by
  constructor
  · decide
  · decide

/-- Claim C2 (amended): on a key collision the caller-supplied metadata value
takes precedence over the system-set one (Python `dict.update` semantics);
system-set fields survive only for keys the caller did not supply. -/
theorem entry_metadata_caller_precedence (user_id cohort_id vent_text now_iso : String)
    (metadata : MetaD) (hnd : (metadata.map Prod.fst).Nodup) :
    (∀ k v, (k, v) ∈ metadata →
      dictGet (entry_metadata user_id cohort_id vent_text now_iso metadata) k = some v) ∧
    (∀ k, (∀ p ∈ metadata, p.1 ≠ k) →
      dictGet (entry_metadata user_id cohort_id vent_text now_iso metadata) k =
        dictGet [("user_id", user_id), ("cohort_id", cohort_id), ("timestamp", now_iso),
          ("text_preview", text_preview vent_text)] k) := by
  unfold entry_metadata
  constructor
  · intro k v hmem
    exact dictGet_dictUpdate_mem _ metadata k v hnd hmem
  · intro k hk
    exact dictGet_dictUpdate_not_mem _ metadata k hk

/-- Witness for C2 at a concrete ingestion: the caller-supplied `user_id`
wins the collision, and the untouched `cohort_id` keeps its system value. -/
theorem entry_metadata_caller_precedence_witness :
    dictGet (entry_metadata "u7" "C7" "hello" "T7"
      [("user_id", "override"), ("session_id", "s1")]) "user_id" = some "override" ∧
    dictGet (entry_metadata "u7" "C7" "hello" "T7"
      [("user_id", "override"), ("session_id", "s1")]) "cohort_id" = some "C7" := by
  have h := entry_metadata_caller_precedence "u7" "C7" "hello" "T7"
    [("user_id", "override"), ("session_id", "s1")] (by decide)
  constructor
  · exact h.1 "user_id" "override" (by decide)
  · rw [h.2 "cohort_id" (by decide)]
    decide

/-! ## Claim C3 — alert-level priority order -/

/-- Claim C3: `_assess_cohort_alert` assigns the alert level by the first
matching rule in priority order (crisis > 0.7 URGENT; else anger > 0.75 or
burnout > 0.75 WARNING; else anxiety > 0.7 MONITOR; else STABLE); in
particular crisis 0.8 with anger 0.9 yields URGENT, not WARNING. -/
theorem assess_cohort_alert_priority (prof : List (String × ℚ)) :
    (getQ prof "crisis" > 7/10 → assess_cohort_alert prof = "URGENT") ∧
    (getQ prof "crisis" ≤ 7/10 →
      (getQ prof "anger" > 75/100 ∨ getQ prof "burnout" > 75/100) →
      assess_cohort_alert prof = "WARNING") ∧
    (getQ prof "crisis" ≤ 7/10 → getQ prof "anger" ≤ 75/100 → getQ prof "burnout" ≤ 75/100 →
      getQ prof "anxiety" > 7/10 → assess_cohort_alert prof = "MONITOR") ∧
    (getQ prof "crisis" ≤ 7/10 → getQ prof "anger" ≤ 75/100 → getQ prof "burnout" ≤ 75/100 →
      getQ prof "anxiety" ≤ 7/10 → assess_cohort_alert prof = "STABLE") ∧
    (getQ prof "crisis" = 8/10 → getQ prof "anger" = 9/10 →
      assess_cohort_alert prof = "URGENT") := by
  unfold assess_cohort_alert
  refine ⟨?_, ?_, ?_, ?_, ?_⟩
  · intro h
    rw [if_pos h]
  · intro h1 h2
    rw [if_neg (not_lt.mpr h1), if_pos h2]
  · intro h1 h2 h3 h4
    rw [if_neg (not_lt.mpr h1), if_neg (not_or.mpr ⟨not_lt.mpr h2, not_lt.mpr h3⟩), if_pos h4]
  · intro h1 h2 h3 h4
    rw [if_neg (not_lt.mpr h1), if_neg (not_or.mpr ⟨not_lt.mpr h2, not_lt.mpr h3⟩),
      if_neg (not_lt.mpr h4)]
  · intro h1 h2
    rw [if_pos (by rw [h1]; norm_num)]

/-- Witness for C3 at a concrete profile with crisis similarity 0.71. -/
theorem assess_cohort_alert_priority_witness :
    assess_cohort_alert [("crisis", 71/100)] = "URGENT" := by
  apply (assess_cohort_alert_priority [("crisis", 71/100)]).1
  have h : getQ [("crisis", 71/100)] "crisis" = 71/100 := rfl
  rw [h]
  norm_num

/-! ## Claim C1 — the crisis gate -/

/-- Claim C1: every flag emitted by `flag_for_human_intervention` comes from a
store candidate whose similarity `1 - d` strictly exceeds the threshold (never
one at or below it), and the flag carries the stored user id, cohort id, the
similarity rounded to 4 decimals, timestamp, text preview,
`intervention_required = true` and the flagging instant; conversely every
candidate strictly above the threshold is flagged. -/
theorem flag_gate_spec (g : Gateways) (db : DB) (t st : ℚ) (fa : String) :
    (∀ f ∈ flag_for_human_intervention g db t st fa,
      ∃ c ∈ queryStore g db (g.embed (get_anchor "crisis")) 50,
        1 - c.1 > t ∧ f = make_flag c.2 (1 - c.1) fa ∧ f.user_id = getS c.2 "user_id" ∧
        f.cohort_id = getS c.2 "cohort_id" ∧ f.crisis_similarity = round4 (1 - c.1) ∧
        f.timestamp = getS c.2 "timestamp" ∧ f.text_preview = getS c.2 "text_preview" ∧
        f.intervention_required = true ∧ f.flagged_at = fa) ∧
    (∀ c ∈ queryStore g db (g.embed (get_anchor "crisis")) 50,
      1 - c.1 > t → make_flag c.2 (1 - c.1) fa ∈ flag_for_human_intervention g db t st fa) := by
  unfold flag_for_human_intervention build_flags
  constructor
  · intro f hf
    rw [List.mem_filterMap] at hf
    obtain ⟨c, hc, hcf⟩ := hf
    refine ⟨c, hc, ?_⟩
    by_cases h : 1 - c.1 > t
    · rw [if_pos h] at hcf
      injection hcf with hcf'
      subst hcf'
      exact ⟨h, rfl, rfl, rfl, rfl, rfl, rfl, rfl, rfl⟩
    · rw [if_neg h] at hcf
      exact absurd hcf (by simp)
  · intro c hc h
    rw [List.mem_filterMap]
    exact ⟨c, hc, by rw [if_pos h]⟩

/-- Witness for C1 on a one-entry store whose candidate has similarity 0.9
against threshold 0.5. -/
theorem flag_gate_spec_witness :
    make_flag meta0 (1 - 1/10) "F1" ∈ flag_for_human_intervention g0 db1 (1/2) (-(8/10)) "F1" := by
  apply (flag_gate_spec g0 db1 (1/2) (-(8/10)) "F1").2 (1/10, meta0)
  · have hq : queryStore g0 db1 (g0.embed (get_anchor "crisis")) 50 = [(1/10, meta0)] := rfl
    rw [hq]
    exact List.mem_singleton.mpr rfl
  · norm_num

/-! ## Claim C4 — search matches, similarity conversion and risk buckets -/

theorem risk_level_buckets (s : ℚ) :
    (s ≥ 95/100 → calculate_risk_level s = "CRITICAL") ∧
    (85/100 ≤ s ∧ s < 95/100 → calculate_risk_level s = "HIGH") ∧
    (75/100 ≤ s ∧ s < 85/100 → calculate_risk_level s = "MODERATE") ∧
    (s < 75/100 → calculate_risk_level s = "LOW") := by
  unfold calculate_risk_level
  refine ⟨?_, ?_, ?_, ?_⟩
  · intro h
    rw [if_pos h]
  · rintro ⟨h1, h2⟩
    rw [if_neg (not_le.mpr h2), if_pos h1]
  · rintro ⟨h1, h2⟩
    rw [if_neg (not_le.mpr (by linarith)), if_neg (not_le.mpr h2), if_pos h1]
  · intro h
    rw [if_neg (not_le.mpr (by linarith)), if_neg (not_le.mpr (by linarith)),
      if_neg (not_le.mpr h)]

/-- Claim C4: every match emitted by `get_top_emotions` arises from a
store-returned distance `d` with similarity `s = 1 - d` at or above the
threshold (candidates below it are discarded), carries
`similarity_score = round(s, 4)`, and carries the risk level of the
non-overlapping buckets (≥0.95 CRITICAL, ≥0.85 HIGH, ≥0.75 MODERATE,
otherwise LOW). -/
theorem get_top_emotions_matches_spec (g : Gateways) (db : DB) (e : String) (θ : ℚ) (k : Int)
    (ms : List Match) (hok : get_top_emotions g db e θ k = Except.ok ms) :
    ∀ m ∈ ms, ∃ c ∈ queryStore g db (g.embed (get_anchor e)) k,
      1 - c.1 ≥ θ ∧ m = make_match c.2 (1 - c.1) ∧ m.similarity_score = round4 (1 - c.1) ∧
      (1 - c.1 ≥ 95/100 → m.risk_level = "CRITICAL") ∧
      (85/100 ≤ 1 - c.1 ∧ 1 - c.1 < 95/100 → m.risk_level = "HIGH") ∧
      (75/100 ≤ 1 - c.1 ∧ 1 - c.1 < 85/100 → m.risk_level = "MODERATE") ∧
      (1 - c.1 < 75/100 → m.risk_level = "LOW") := by
  intro m hm
  unfold get_top_emotions at hok
  by_cases ha : get_anchor e = ""
  · rw [if_pos ha] at hok
    exact absurd hok (by simp)
  · rw [if_neg ha] at hok
    injection hok with hok'
    subst hok'
    unfold build_matches at hm
    rw [List.mem_filterMap] at hm
    obtain ⟨c, hc, hcm⟩ := hm
    by_cases h : 1 - c.1 ≥ θ
    · rw [if_pos h] at hcm
      injection hcm with hcm'
      subst hcm'
      exact ⟨c, hc, h, rfl, rfl, (risk_level_buckets (1 - c.1)).1,
        (risk_level_buckets (1 - c.1)).2.1, (risk_level_buckets (1 - c.1)).2.2.1,
        (risk_level_buckets (1 - c.1)).2.2.2⟩
    · rw [if_neg h] at hcm
      exact absurd hcm (by simp)

/-- Witness for C4 on a one-entry store: the emitted match for the anger
search at threshold 0.5 comes from the candidate at distance 0.1. -/
theorem get_top_emotions_matches_witness :
    ∃ c ∈ queryStore g0 db1 (g0.embed (get_anchor "anger")) 10,
      1 - c.1 ≥ 1/2 ∧ make_match meta0 (1 - 1/10) = make_match c.2 (1 - c.1) ∧
      (make_match meta0 (1 - 1/10)).similarity_score = round4 (1 - c.1) ∧
      (1 - c.1 ≥ 95/100 → (make_match meta0 (1 - 1/10)).risk_level = "CRITICAL") ∧
      (85/100 ≤ 1 - c.1 ∧ 1 - c.1 < 95/100 →
        (make_match meta0 (1 - 1/10)).risk_level = "HIGH") ∧
      (75/100 ≤ 1 - c.1 ∧ 1 - c.1 < 85/100 →
        (make_match meta0 (1 - 1/10)).risk_level = "MODERATE") ∧
      (1 - c.1 < 75/100 → (make_match meta0 (1 - 1/10)).risk_level = "LOW") := by
  have hok : get_top_emotions g0 db1 "anger" (1/2) 10
      = Except.ok [make_match meta0 (1 - 1/10)] := by
    unfold get_top_emotions
    rw [if_neg (by decide)]
    have hq : queryStore g0 db1 (g0.embed (get_anchor "anger")) 10 = [(1/10, meta0)] := rfl
    rw [hq]
    unfold build_matches
    simp only [List.filterMap]
    norm_num
  exact get_top_emotions_matches_spec g0 db1 "anger" (1/2) 10 _ hok _
    (List.mem_singleton.mpr rfl)

/-! ## Claim C6 — the sentiment threshold is never consulted -/

/-- Claim C6: for any store state and similarity threshold the result of
`flag_for_human_intervention` is identical for any two values of the
sentiment-threshold parameter: the parameter is accepted but never consulted. -/
theorem flag_sentiment_noninterference (g : Gateways) (db : DB) (t s1 s2 : ℚ) (fa : String) :
    flag_for_human_intervention g db t s1 fa = flag_for_human_intervention g db t s2 fa := rfl

/-! ## Claim C8 — no InvalidArgument validation exists -/

/-- Claim C8 as stated is false: a call with threshold 1.5 (outside [0,1])
does not fail — it returns an ordinary (here empty) result list. -/
theorem get_top_emotions_no_invalid_argument_counterexample :
    ¬((0 : ℚ) ≤ 3/2 ∧ (3/2 : ℚ) ≤ 1) ∧
    get_top_emotions g0 db1 "anger" (3/2) 5 = Except.ok [] := by
  constructor
  · intro h
    exact absurd h.2 (by norm_num)
  · unfold get_top_emotions
    rw [if_neg (by decide)]
    have hq : queryStore g0 db1 (g0.embed (get_anchor "anger")) 5 = [(1/10, meta0)] := rfl
    rw [hq]
    unfold build_matches
    simp only [List.filterMap]
    norm_num

/-- Claim C8 (amended): `get_top_emotions` performs no threshold or topK
validation; for every registered emotion the call succeeds whatever the
threshold and topK are, and the only engine-rejected input is an unregistered
emotion. -/
theorem get_top_emotions_no_validation (g : Gateways) (db : DB) (e : String) (θ : ℚ) (k : Int)
    (h : get_anchor e ≠ "") :
    ∃ ms, get_top_emotions g db e θ k = Except.ok ms := by
  unfold get_top_emotions
  rw [if_neg h]
  exact ⟨_, rfl⟩

/-- Witness for C8 (amended): threshold −1 (outside [0,1]) and topK 0 still
succeed. -/
theorem get_top_emotions_no_validation_witness :
    ∃ ms, get_top_emotions g0 db1 "anger" (-1) 0 = Except.ok ms :=
  get_top_emotions_no_validation g0 db1 "anger" (-1) 0 (by decide)

/-! ## Claim C9 — entry ids collide at equal wall-clock readings -/

/-- Claim C9 is right and the code is wrong: two ingestions by the same user
at the same clock reading produce the same entry id, so the stored ids are
not unique (the source comment claims to "Generate unique ID"). -/
theorem entry_id_collision_bug :
    (add_emotional_entry g0 "u1" "C1" "first vent" [] "2024-01-01T00:00:00" "1700000000.0"
      ⟨[]⟩).1 =
    (add_emotional_entry g0 "u1" "C1" "second vent" [] "2024-01-01T00:00:00" "1700000000.0"
      (add_emotional_entry g0 "u1" "C1" "first vent" [] "2024-01-01T00:00:00" "1700000000.0"
        ⟨[]⟩).2).1 ∧
    ¬(((add_emotional_entry g0 "u1" "C1" "second vent" [] "2024-01-01T00:00:00" "1700000000.0"
      (add_emotional_entry g0 "u1" "C1" "first vent" [] "2024-01-01T00:00:00" "1700000000.0"
        ⟨[]⟩).2).2.entries.map (fun e => e.id)).Nodup) := by
  constructor
  · rfl
  · decide

/-! ## Claim C10 — only ingestion modifies the store -/

/-- Claim C10: search, cohort analysis, the crisis gate and stats leave the
collection unchanged, while ingestion appends exactly one new entry and keeps
every previously stored entry intact (no update or delete exists). -/
theorem ops_frame_spec (g : Gateways) (db : DB) (e : String) (θ : ℚ) (k : Int)
    (cohort : String) (t st : ℚ) (fa now_iso : String)
    (u c txt iso ts : String) (md : MetaD) :
    (get_top_emotions_op g e θ k db).2 = db ∧
    (analyze_cohort_health_op g cohort now_iso db).2 = db ∧
    (flag_for_human_intervention_op g t st fa db).2 = db ∧
    (get_stats_op db).2 = db ∧
    (add_emotional_entry g u c txt md iso ts db).2.entries.length = db.entries.length + 1 ∧
    (add_emotional_entry g u c txt md iso ts db).2.entries.take db.entries.length
      = db.entries := by
  refine ⟨rfl, rfl, rfl, rfl, ?_, ?_⟩
  · unfold add_emotional_entry
    simp
  · unfold add_emotional_entry
    exact List.take_left db.entries _

/-! ## Claim C5 — empty-cohort analysis -/

/-- Claim C5 as stated is false on one point: besides the status and the
cohort id, the `no_data` result also carries a `message` field, so "no
further fields" does not hold literally. -/
theorem analyze_no_data_extra_field_counterexample :
    "message" ∈ (analyze_cohort_health g0 "EmptyCohort" ⟨[]⟩ "T").map Prod.fst ∧
    "message" ≠ "cohort_id" ∧ "message" ≠ "status" := by
  have h : analyze_cohort_health g0 "EmptyCohort" ⟨[]⟩ "T" =
      [("cohort_id", RVal.s "EmptyCohort"), ("status", RVal.s "no_data"),
       ("message", RVal.s "No emotional data found for this cohort")] := by
    unfold analyze_cohort_health
    rw [if_pos (show (cohort_entries ⟨[]⟩ "EmptyCohort").isEmpty = true from rfl)]
  rw [h]
  exact ⟨by decide, by decide, by decide⟩

/-- Claim C5 (amended): for every cohort id with no stored entries (unknown
cohorts included) `analyze_cohort_health` does not fail: it returns status
`no_data` with the cohort id and a human-readable message and nothing else —
in particular no `emotion_profile`, `total_entries`, `dominant_emotion` or
`alert_level` field. -/
theorem analyze_no_data_spec (g : Gateways) (cohort_id : String) (db : DB) (now_iso : String)
    (h : (cohort_entries db cohort_id).isEmpty = true) :
    analyze_cohort_health g cohort_id db now_iso =
      [("cohort_id", RVal.s cohort_id), ("status", RVal.s "no_data"),
       ("message", RVal.s "No emotional data found for this cohort")] ∧
    (analyze_cohort_health g cohort_id db now_iso).map Prod.fst =
      ["cohort_id", "status", "message"] ∧
    "emotion_profile" ∉ (analyze_cohort_health g cohort_id db now_iso).map Prod.fst ∧
    "total_entries" ∉ (analyze_cohort_health g cohort_id db now_iso).map Prod.fst ∧
    "dominant_emotion" ∉ (analyze_cohort_health g cohort_id db now_iso).map Prod.fst ∧
    "alert_level" ∉ (analyze_cohort_health g cohort_id db now_iso).map Prod.fst := by
  have heq : analyze_cohort_health g cohort_id db now_iso =
      [("cohort_id", RVal.s cohort_id), ("status", RVal.s "no_data"),
       ("message", RVal.s "No emotional data found for this cohort")] := by
    unfold analyze_cohort_health
    rw [if_pos h]
  refine ⟨heq, ?_, ?_, ?_, ?_, ?_⟩ <;> rw [heq] <;> simp

/-- Witness for C5 (amended) on the empty store with an unknown cohort id. -/
theorem analyze_no_data_spec_witness :
    analyze_cohort_health g0 "NoSuchCohort" ⟨[]⟩ "T2" =
      [("cohort_id", RVal.s "NoSuchCohort"), ("status", RVal.s "no_data"),
       ("message", RVal.s "No emotional data found for this cohort")] :=
  (analyze_no_data_spec g0 "NoSuchCohort" ⟨[]⟩ "T2" rfl).1

/-! ## Claim C7 — the cosine similarity formula -/

theorem zipWith_mul_ofFn : ∀ (n : ℕ) (f g : Fin n → ℝ),
    List.zipWith (fun x y => x * y) (List.ofFn f) (List.ofFn g) =
      List.ofFn (fun i => f i * g i)
  | 0, _, _ => rfl
  | n + 1, f, g => by
    rw [List.ofFn_succ, List.ofFn_succ, List.zipWith_cons_cons,
      zipWith_mul_ofFn n (fun i => f i.succ) (fun i => g i.succ),
      List.ofFn_succ (fun i : Fin (n + 1) => f i * g i)]

theorem dotList_ofFn (n : ℕ) (f g : Fin n → ℝ) :
    dotList (List.ofFn f) (List.ofFn g) = ∑ i, f i * g i := by
  rw [dotList, zipWith_mul_ofFn n f g, List.sum_ofFn]

theorem sumSq_ofFn (n : ℕ) (f : Fin n → ℝ) :
    sumSq (List.ofFn f) = ∑ i, f i * f i := by
  rw [sumSq, List.map_ofFn, List.sum_ofFn]
  rfl

theorem sqrt_sumSq_eq_norm (n : ℕ) (a : EuclideanSpace ℝ (Fin n)) :
    Real.sqrt (sumSq (List.ofFn (fun i => a i))) = ‖a‖ := by
  rw [sumSq_ofFn n (fun i => a i), EuclideanSpace.norm_eq]
  congr 1
  refine Finset.sum_congr rfl (fun i _ => ?_)
  rw [Real.norm_eq_abs, sq_abs, pow_two]

theorem dotList_eq_inner (n : ℕ) (a b : EuclideanSpace ℝ (Fin n)) :
    dotList (List.ofFn (fun i => a i)) (List.ofFn (fun i => b i)) = (inner a b : ℝ) := by
  rw [dotList_ofFn n (fun i => a i) (fun i => b i), PiLp.inner_apply]
  refine Finset.sum_congr rfl (fun i _ => ?_)
  rw [RCLike.inner_apply, starRingEnd_apply, star_trivial]

/-- Claim C7 (amended): on vectors of nonzero norm `_cosine_distance` computes
`1 - (a·b)/(‖a‖‖b‖)` with the genuine Euclidean inner product and norm; when
either vector has zero norm the returned distance is `1.0` (similarity `0`,
the midpoint of the range), not the maximal distance. -/
theorem cosine_distance_spec (n : ℕ) (a b : EuclideanSpace ℝ (Fin n)) (v w : List ℝ) :
    (a ≠ 0 → b ≠ 0 →
      cosine_distance (List.ofFn (fun i => a i)) (List.ofFn (fun i => b i)) =
        1 - (inner a b : ℝ) / (‖a‖ * ‖b‖)) ∧
    (sumSq v = 0 ∨ sumSq w = 0 → cosine_distance v w = 1) := by
  constructor
  · intro ha hb
    unfold cosine_distance
    rw [sqrt_sumSq_eq_norm n a, sqrt_sumSq_eq_norm n b,
      if_neg (by push_neg; exact ⟨norm_ne_zero_iff.mpr ha, norm_ne_zero_iff.mpr hb⟩),
      dotList_eq_inner n a b]
  · intro h
    unfold cosine_distance
    rcases h with h | h
    · rw [h, Real.sqrt_zero, if_pos (Or.inl rfl)]
    · rw [h, Real.sqrt_zero, if_pos (Or.inr rfl)]

/-- Claim C7's zero-norm clause is false on the code: at a zero vector the
returned distance is 1 (similarity 0), not the minimum similarity −1 /
maximal distance 2, which the same function attains on anti-parallel
vectors. -/
theorem cosine_distance_zero_norm_counterexample :
    cosine_distance [(0 : ℝ)] [(1 : ℝ)] = 1 ∧
    1 - cosine_distance [(0 : ℝ)] [(1 : ℝ)] ≠ -1 ∧
    cosine_distance [(1 : ℝ)] [(-1 : ℝ)] = 2 := by
  have hz : cosine_distance [(0 : ℝ)] [(1 : ℝ)] = 1 := by
    unfold cosine_distance
    rw [if_pos]
    left
    have h0 : sumSq [(0 : ℝ)] = 0 := by simp [sumSq]
    rw [h0, Real.sqrt_zero]
  refine ⟨hz, by rw [hz]; norm_num, ?_⟩
  have h1 : sumSq [(1 : ℝ)] = 1 := by simp [sumSq]
  have h2 : sumSq [(-1 : ℝ)] = 1 := by simp [sumSq]
  have hd : dotList [(1 : ℝ)] [(-1 : ℝ)] = -1 := by simp [dotList]
  unfold cosine_distance
  rw [h1, h2, Real.sqrt_one, hd, if_neg (by norm_num)]
  norm_num

theorem ofFn_oneVec : List.ofFn (fun i : Fin 1 => oneVec i) = [(1 : ℝ)] := by
  simp [List.ofFn_succ, oneVec, EuclideanSpace.single_apply]

theorem oneVec_ne_zero : oneVec ≠ 0 := by
  intro h
  have h0 : oneVec 0 = 0 := by rw [h]; rfl
  rw [oneVec, EuclideanSpace.single_apply] at h0
  simp at h0

/-- Witness for C7: the unit vector has nonzero norm and the embedded distance
matches the inner-product formula there; the zero vector yields distance 1. -/
theorem cosine_distance_spec_witness :
    cosine_distance [(1 : ℝ)] [(1 : ℝ)] =
      1 - (inner oneVec oneVec : ℝ) / (‖oneVec‖ * ‖oneVec‖) ∧
    cosine_distance [(0 : ℝ)] [(1 : ℝ)] = 1 := by
  have h := cosine_distance_spec 1 oneVec oneVec [(0 : ℝ)] [(1 : ℝ)]
  constructor
  · have h1 := h.1 oneVec_ne_zero oneVec_ne_zero
    rw [ofFn_oneVec] at h1
    exact h1
  · exact h.2 (Or.inl (by simp [sumSq]))
